import Mathlib

/-!
Verification of the AgentVerse multi-agent backend (`src/backend/agents.py`,
`src/backend/server.py`) against its natural-language specification.

The Python code is shallowly embedded: pure functions become Lean functions,
classes become structures, the global orchestrator singleton becomes explicit
state passing, and every call into the external Strands runtime (LLM calls,
the swarm engine, the thread-pool executor) is modelled by an explicit
parameter describing the call's observable outcome (a returned value or a
raised exception).  Python strings are `String`, Python `kw in s` is literal
substring containment over the code points, and Python `str.lower` is
modelled by mapping `Char.toLower` over the code points (identical on the
ASCII strings the routing table uses).
-/

set_option linter.unusedVariables false

namespace ArkAgentic

/-! ## Python string primitives -/

/-- `isPrefixList needle hay`: `needle` is a prefix of `hay` (code-point wise). -/
def isPrefixList : List Char → List Char → Bool
  | [], _ => true
  | _ :: _, [] => false
  | c :: cs, d :: ds => c == d && isPrefixList cs ds

/-- `containsSub needle hay`: `needle` occurs contiguously somewhere in `hay`. -/
def containsSub (needle : List Char) : List Char → Bool
  | [] => isPrefixList needle []
  | c :: cs => isPrefixList needle (c :: cs) || containsSub needle cs

/-- Python's `needle in hay` on strings: literal substring containment. -/
def strContains (hay needle : String) : Bool :=
  containsSub needle.data hay.data

/-- Python's `str.lower`, code point by code point (`Char.toLower` agrees with
Python on ASCII, which is all the routing keywords use). -/
def toLowerStr (s : String) : String :=
  String.mk (s.data.map Char.toLower)

/-- Python truthiness of an optional string: `None` and `""` are falsy. -/
def truthyOptStr : Option String → Bool
  | none => false
  | some s => !(s == "")

/-- Python's `a or b` where `a` is an optional string and `b` a string:
yields `b` when `a` is `None` or empty. -/
def pyOrStr (a : Option String) (b : String) : String :=
  match a with
  | none => b
  | some s => if s == "" then b else s

/-- Python's `a or b` on two optional strings (`os.getenv` results). -/
def pyOrOpt (a b : Option String) : Option String :=
  if truthyOptStr a then a else b

/-! ## The static model catalog (`agents.py` lines 35–98) -/

/-- One entry of `AI_MODELS`: pricing/metadata for a model
(costs are per 1M tokens, kept as exact rationals). -/
structure ModelInfo where
  name : String
  provider : String
  input_cost : ℚ
  output_cost : ℚ
  context : Nat
  speed : String
  description : String
  recommended : Bool
deriving DecidableEq

/-- `AI_MODELS`: the static model catalog, in source order. -/
def AI_MODELS : List (String × ModelInfo) := [
  ("mistralai/mistral-nemo",
   { name := "Mistral Nemo", provider := "Mistral AI",
     input_cost := (0.13 : ℚ), output_cost := (0.13 : ℚ),
     context := 128000, speed := "fast",
     description := "Fast & cheap, great for most tasks", recommended := true }),
  ("google/gemini-2.0-flash-lite-001",
   { name := "Gemini 2.0 Flash Lite", provider := "Google",
     input_cost := (0.075 : ℚ), output_cost := (0.30 : ℚ),
     context := 1000000, speed := "very fast",
     description := "Ultra-fast, massive context window", recommended := false }),
  ("qwen/qwen-turbo",
   { name := "Qwen Turbo", provider := "Alibaba",
     input_cost := (0.20 : ℚ), output_cost := (0.20 : ℚ),
     context := 131072, speed := "fast",
     description := "Excellent multilingual support", recommended := false }),
  ("openai/gpt-4.1-nano",
   { name := "GPT-4.1 Nano", provider := "OpenAI",
     input_cost := (0.10 : ℚ), output_cost := (0.40 : ℚ),
     context := 1047576, speed := "fast",
     description := "Compact but capable GPT-4 variant", recommended := false }),
  ("anthropic/claude-3.5-haiku",
   { name := "Claude 3.5 Haiku", provider := "Anthropic",
     input_cost := (0.80 : ℚ), output_cost := (4.00 : ℚ),
     context := 200000, speed := "fast",
     description := "High quality, balanced performance", recommended := false }),
  ("anthropic/claude-sonnet-4",
   { name := "Claude Sonnet 4", provider := "Anthropic",
     input_cost := (3.00 : ℚ), output_cost := (15.00 : ℚ),
     context := 200000, speed := "medium",
     description := "Premium quality, complex reasoning", recommended := false })
]

/-- `DEFAULT_MODEL` (`agents.py` line 98). -/
def DEFAULT_MODEL : String := "mistralai/mistral-nemo"

/-! ## Keyword routing (`route_to_agent`, `agents.py` lines 334–430)

The keyword lists are inline in the Python function; they are named here so
that the priority-order theorem can state the table explicitly. -/

/-- Research keywords routed to Scout (`agents.py` lines 341–350). -/
def researchKeywords : List String :=
  ["research", "find", "search", "look up", "company", "prospect", "people",
   "who is"]

/-- Analysis keywords routed to Sage (`agents.py` lines 357–367). -/
def analysisKeywords : List String :=
  ["analyze", "compare", "versus", "vs", "strategy", "recommend", "should",
   "pros and cons", "evaluate"]

/-- Writing/news keywords routed to Chronicle (`agents.py` lines 374–384). -/
def writingKeywords : List String :=
  ["article", "write", "news", "cqc", "care home", "social care",
   "healthcare", "summarize", "report"]

/-- Trend keywords routed to Trends (`agents.py` lines 391–399). -/
def trendsKeywords : List String :=
  ["trending", "this week", "breaking", "keywords", "buzz",
   "what's happening", "current events"]

/-- Freelancing/business keywords routed to Gandalfius (`agents.py`
lines 406–425). -/
def businessKeywords : List String :=
  ["freelance", "freelancing", "pricing", "rates", "rate", "clients",
   "client", "proposal", "scope", "scope creep", "hourly", "value-based",
   "contract", "charge", "business", "entrelancer", "raise rates", "budget"]

/-- `route_to_agent` (`agents.py` lines 334–430): keyword-based routing.
The query is lowercased, the five keyword groups are tested in source order,
the first group with any substring match wins, and the default is
`"maven"`. -/
def route_to_agent (query : String) : String :=
  let query_lower := toLowerStr query
  if researchKeywords.any (fun kw => strContains query_lower kw) then "scout"
  else if analysisKeywords.any (fun kw => strContains query_lower kw) then "sage"
  else if writingKeywords.any (fun kw => strContains query_lower kw) then "chronicle"
  else if trendsKeywords.any (fun kw => strContains query_lower kw) then "trends"
  else if businessKeywords.any (fun kw => strContains query_lower kw) then "gandalfius"
  else "maven"

/-- The routing priority table exactly as the spec words it: keyword groups
in the fixed order research, analysis, writing/news, trends,
business/freelancing, each tied to its persona. -/
def routingTable : List (List String × String) :=
  [(researchKeywords, "scout"),
   (analysisKeywords, "sage"),
   (writingKeywords, "chronicle"),
   (trendsKeywords, "trends"),
   (businessKeywords, "gandalfius")]

/-- The spec's description of routing: the first group of `routingTable`
with any substring match wins; if no group matches, the coordinator
`"maven"` is returned.  (Stated from the spec's words, to be compared
against `route_to_agent`, which is stated from the source.) -/
def routeSpec (query : String) : String :=
  let query_lower := toLowerStr query
  match routingTable.find? (fun g => g.1.any (fun kw => strContains query_lower kw)) with
  | some g => g.2
  | none => "maven"

/-- C1: Routing priority order.  For every query, `route_to_agent` equals the
spec's first-match lookup over the fixed priority table (research → scout,
analysis → sage, writing/news → chronicle, trends → trends,
business/freelancing → gandalfius, default maven); in particular a query
containing both a research keyword and an analysis keyword resolves to
`"scout"`. -/
theorem routing_priority_order :
    (∀ q : String, route_to_agent q = routeSpec q) ∧
    route_to_agent "find and analyze this company" = "scout" := by
  constructor
  · intro q
    simp only [route_to_agent, routeSpec, routingTable]
    cases h1 : researchKeywords.any (fun kw => strContains (toLowerStr q) kw) <;>
      cases h2 : analysisKeywords.any (fun kw => strContains (toLowerStr q) kw) <;>
        cases h3 : writingKeywords.any (fun kw => strContains (toLowerStr q) kw) <;>
          cases h4 : trendsKeywords.any (fun kw => strContains (toLowerStr q) kw) <;>
            cases h5 : businessKeywords.any (fun kw => strContains (toLowerStr q) kw) <;>
              simp [List.find?, h1, h2, h3, h4, h5]
  · decide

/-- C8: Literal substring matching.  A query whose lowercased text contains
the character sequence `"vs"` anywhere (word boundaries are irrelevant) and
matches no keyword of the earlier research group is routed to `"sage"`. -/
theorem literal_substring_matching (q : String)
    (hvs : strContains (toLowerStr q) "vs" = true)
    (hres : researchKeywords.all (fun kw => !strContains (toLowerStr q) kw) = true) :
    route_to_agent q = "sage" := by
  have h1 : researchKeywords.any (fun kw => strContains (toLowerStr q) kw) = false := by
    rw [List.any_eq_false]
    intro kw hkw
    have h := List.all_eq_true.mp hres kw hkw
    simpa using h
  have h2 : analysisKeywords.any (fun kw => strContains (toLowerStr q) kw) = true := by
    rw [List.any_eq_true]
    exact ⟨"vs", by decide, hvs⟩
  simp only [route_to_agent, h1, h2]
  rfl

/-- C8 witness: `"advsomething"` contains `"vs"` only inside a longer word,
matches no research keyword, and is routed to `"sage"`. -/
theorem literal_substring_matching_witness : route_to_agent "advsomething" = "sage" :=
  literal_substring_matching "advsomething" (by decide) (by decide)

/-! ## Agent personas (`AGENT_CONFIGS`, `agents.py` lines 101–240) -/

/-- One entry of `AGENT_CONFIGS`: a persona's display data and system prompt. -/
structure AgentConfig where
  name : String
  emoji : String
  role : String
  system_prompt : String
deriving DecidableEq

/-- `AGENT_CONFIGS`: the persona registry, in source order. -/
def AGENT_CONFIGS : List (String × AgentConfig) := [
  ("scout",
   { name := "Scout", emoji := "🔍",
     role := "Research Specialist",
     system_prompt :=
       "You are Scout, a resourceful research specialist in a retro RPG game world.\n\nCRITICAL RESPONSE RULES:\n- Keep responses SHORT and conversational (2-4 sentences for simple questions)\n- Match the user's energy - short question = short answer\n- Sound like a helpful friend, NOT a corporate report\n- NO bullet points or lists unless specifically asked\n- NO unnecessary intros like \"Great question!\" or \"I'd be happy to help!\"\n- Get straight to the point\n\nYour expertise: research, finding information, company/people lookups.\n\nExample good response: \"Found it! Acme Corp was founded in 2015 by Jane Smith. They're a SaaS company focused on HR software, about 50 employees.\"\n\nExample BAD response: \"Great question! I'd be happy to help you research Acme Corp. Here's what I found: [long bulleted list]...\"\n\nYou work with Sage (analyst), Chronicle (writer), Trends (news), and Maven (coordinator)." }),
  ("sage",
   { name := "Sage", emoji := "🧙",
     role := "Strategic Analyst",
     system_prompt :=
       "You are Sage, a wise strategic analyst in a retro RPG game world.\n\nCRITICAL RESPONSE RULES:\n- Keep responses SHORT and conversational (2-4 sentences for simple questions)\n- Match the user's energy - short question = short answer  \n- Sound like a thoughtful advisor, NOT a business consultant\n- NO bullet points or lists unless specifically asked\n- NO unnecessary intros or padding\n- Get straight to your insight\n\nYour expertise: analysis, strategy, comparing options, recommendations.\n\nExample good response: \"I'd go with Option A. It's cheaper upfront and the reviews are consistently better. Option B has more features but you probably won't use half of them.\"\n\nExample BAD response: \"Let me analyze this for you. Here are the pros and cons: [long structured analysis]...\"\n\nYou work with Scout (research), Chronicle (writer), Trends (news), and Maven (coordinator)." }),
  ("chronicle",
   { name := "Chronicle", emoji := "✍️",
     role := "Newsroom Editor",
     system_prompt :=
       "You are Chronicle, a skilled newsroom editor in a retro RPG game world.\n\nCRITICAL RESPONSE RULES:\n- Keep responses SHORT and conversational (2-4 sentences for simple questions)\n- Match the user's energy - short question = short answer\n- Sound like a sharp journalist, NOT a content mill\n- NO bullet points or lists unless specifically asked\n- NO unnecessary intros or padding\n- Get straight to the story\n\nYour expertise: writing, summarizing, news, healthcare/social care topics.\n\nExample good response: \"Here's the gist: CQC just rated them 'Requires Improvement' mainly due to staffing issues. Third care home in the area to get that rating this month.\"\n\nExample BAD response: \"I'd be happy to summarize this news for you. Here are the key points: [long bulleted summary]...\"\n\nYou work with Scout (research), Sage (analyst), Trends (news), and Maven (coordinator)." }),
  ("trends",
   { name := "Trends", emoji := "📈",
     role := "Intelligence Analyst",
     system_prompt :=
       "You are Trends, an intelligence analyst in a retro RPG game world.\n\nCRITICAL RESPONSE RULES:\n- Keep responses SHORT and conversational (2-4 sentences for simple questions)\n- Match the user's energy - short question = short answer\n- Sound like someone who's always online, NOT a market analyst\n- NO bullet points or lists unless specifically asked\n- NO unnecessary intros or padding\n- Get straight to what's buzzing\n\nYour expertise: trending topics, breaking news, market trends, what's hot.\n\nExample good response: \"AI video is blowing up right now. Sora alternatives are trending hard, especially Kling and Runway. Everyone's making weird cat videos with them.\"\n\nExample BAD response: \"Here are the current trending topics I've identified: [long categorized list]...\"\n\nYou work with Scout (research), Sage (analyst), Chronicle (writer), and Maven (coordinator)." }),
  ("maven",
   { name := "Maven", emoji := "👋",
     role := "General Assistant & Coordinator",
     system_prompt :=
       "You are Maven, a friendly assistant in a retro RPG game world.\n\nCRITICAL RESPONSE RULES:\n- Keep responses SHORT and conversational (2-4 sentences for simple questions)\n- Match the user's energy - short question = short answer\n- Sound like a helpful friend, NOT an AI assistant\n- NO bullet points or lists unless specifically asked\n- NO unnecessary intros like \"Great question!\" or \"I'd be happy to help!\"\n- Get straight to being helpful\n\nYour role: general help, coordinating with specialists when needed.\n\nExample good response: \"Hey! Yeah I can help with that. The meeting room is just to the right of the fountain.\"\n\nExample BAD response: \"Hello! I'd be happy to assist you today. Here's what I can help you with: [long explanation]...\"\n\nYou coordinate with Scout (research), Sage (analyst), Chronicle (writer), Trends (news), and Gandalfius (freelancing wizard)." }),
  ("gandalfius",
   { name := "Gandalfius", emoji := "🧙‍♂️",
     role := "Freelancing Wizard",
     system_prompt :=
       "You are Gandalfius, the Freelancing Wizard in a retro RPG game world. You help freelancers become \"Entrelancers\" - owners of scalable businesses.\n\nCRITICAL RESPONSE RULES:\n- Keep responses SHORT and conversational (2-4 sentences for simple questions)\n- Match the user's energy - short question = short answer\n- Sound like a wise but chill wizard, NOT a business coach giving a lecture\n- NO bullet points or lists unless specifically asked\n- NO long frameworks or multi-step processes unless they ask for detail\n- Get straight to the wisdom\n\nYOUR CORE WISDOM (use sparingly, don't dump all at once):\n- \"Your rate is your floor, not your headline\" - price for value, not hours\n- \"Shrink the deliverable, not your fee\" - when clients want discounts\n- \"Scope creep is confusion, not entitlement\" - define the finish line upfront\n- \"Speak client\" - talk outcomes, not deliverables\n\nExample good response: \"Ah, the classic 'can you do it cheaper' quest. Here's the spell: don't lower your rate, shrink the scope. Tell them 'we can start simpler and add later.' Works every time.\"\n\nExample BAD response: \"Great question about pricing! Let me share my framework for handling discount requests. There are three key principles to consider: [long numbered list]...\"\n\nOccasionally use light wizard-themed language but don't overdo it.\n\nYou work with Scout, Sage, Chronicle, Trends, and Maven." })
]

/-! ## The model and agent factories (`agents.py` lines 243–331) -/

/-- The process environment seen by `os.getenv` inside `get_model`. -/
structure Env where
  OPENROUTER_API_KEY : Option String
  ANTHROPIC_API_KEY : Option String
deriving DecidableEq

/-- The `OpenAIModel` handle `get_model` builds: the client arguments plus
the selected model id. -/
structure OpenAIModel where
  api_key : String
  base_url : String
  model_id : String
deriving DecidableEq

/-- `get_model` (`agents.py` lines 243–274).  Returns the built model
together with a flag recording whether the unknown-model warning was
logged; raising `ValueError` is modelled by `Except.error`. -/
def get_model (env : Env) (model_id : Option String) :
    Except String (OpenAIModel × Bool) :=
  match pyOrOpt env.OPENROUTER_API_KEY env.ANTHROPIC_API_KEY with
  | none => .error "OPENROUTER_API_KEY or ANTHROPIC_API_KEY must be set"
  | some api_key =>
    if api_key == "" then
      .error "OPENROUTER_API_KEY or ANTHROPIC_API_KEY must be set"
    else
      let selected_model := pyOrStr model_id DEFAULT_MODEL
      let selected_warn :=
        if (AI_MODELS.lookup selected_model).isNone then (DEFAULT_MODEL, true)
        else (selected_model, false)
      .ok ({ api_key := api_key,
             base_url := "https://openrouter.ai/api/v1",
             model_id := selected_warn.1 }, selected_warn.2)

/-- `get_available_models` (`agents.py` lines 277–279). -/
def get_available_models : List (String × ModelInfo) := AI_MODELS

/-- A built Strands `Agent`.  The tool objects are opaque runtime values;
they are represented by their names.  (`callback_handler=None` has no
observable effect in this model and is omitted.) -/
structure Agent where
  name : String
  system_prompt : String
  model : OpenAIModel
  tools : List String
deriving DecidableEq

/-- `create_agent` (`agents.py` lines 282–305).  The `ValueError` for an
unknown agent type and any error from `get_model` become `Except.error`. -/
def create_agent (env : Env) (agent_type : String) (tools : Option (List String))
    (model_id : Option String) : Except String Agent :=
  match AGENT_CONFIGS.lookup agent_type with
  | none => .error ("Unknown agent type: " ++ agent_type)
  | some config =>
    match get_model env model_id with
    | .error e => .error e
    | .ok (model, _) =>
      .ok { name := toLowerStr config.name,
            system_prompt := config.system_prompt,
            model := model,
            tools := tools.getD [] }

/-- A built Strands `Swarm` group. Timeouts are seconds, kept as exact
rationals. -/
structure Swarm where
  nodes : List Agent
  entry_point : Agent
  max_handoffs : Nat
  max_iterations : Nat
  execution_timeout : ℚ
  node_timeout : ℚ
deriving DecidableEq

/-- `create_swarm` (`agents.py` lines 308–331).  `ctorFault` models an
exception raised by the external `Swarm(...)` constructor itself (after the
six member agents were built); agent-construction errors propagate as in the
source. -/
def create_swarm (env : Env) (tools : Option (List String))
    (ctorFault : Option String) : Except String Swarm := do
  let agent_tools := tools.getD []
  let scout ← create_agent env "scout" (some agent_tools) none
  let sage ← create_agent env "sage" (some agent_tools) none
  let chronicle ← create_agent env "chronicle" (some agent_tools) none
  let trends ← create_agent env "trends" (some agent_tools) none
  let maven ← create_agent env "maven" (some agent_tools) none
  let gandalfius ← create_agent env "gandalfius" (some agent_tools) none
  match ctorFault with
  | some m => .error m
  | none =>
    .ok { nodes := [scout, sage, chronicle, trends, maven, gandalfius],
          entry_point := maven,
          max_handoffs := 10,
          max_iterations := 15,
          execution_timeout := (120.0 : ℚ),
          node_timeout := (30.0 : ℚ) }

/-- C7 counterexample: the claim quantifies over every `model_id` that is
not a key of `AI_MODELS`, but the empty string is such a `model_id` and is
falsy in Python, so `model_id or DEFAULT_MODEL` silently selects the default
before the catalog check: `get_model` succeeds bound to the default model
with NO warning logged (the returned flag is `false`). -/
theorem model_fallback_counterexample :
    AI_MODELS.lookup "" = none ∧
    get_model { OPENROUTER_API_KEY := some "k", ANTHROPIC_API_KEY := none } (some "") =
      .ok ({ api_key := "k",
             base_url := "https://openrouter.ai/api/v1",
             model_id := "mistralai/mistral-nemo" }, false) := by
  constructor
  · rfl
  · rfl

/-- C7 (amended): for every non-empty `model_id` that is not a key of
`AI_MODELS`, given a truthy backend API key, `get_model` does not fail: it
logs the unknown-model warning and returns a model bound to
`DEFAULT_MODEL = "mistralai/mistral-nemo"`; consequently `create_agent`
succeeds for every registered agent type with that `model_id`. -/
theorem model_fallback (env : Env) (mid : String)
    (hkey : truthyOptStr (pyOrOpt env.OPENROUTER_API_KEY env.ANTHROPIC_API_KEY) = true)
    (hmid : AI_MODELS.lookup mid = none) (hne : mid ≠ "") :
    (∃ m, get_model env (some mid) = .ok (m, true) ∧ m.model_id = DEFAULT_MODEL) ∧
    (∀ tools atype, (AGENT_CONFIGS.lookup atype).isSome = true →
        (create_agent env atype tools (some mid)).isOk = true) := by
  obtain ⟨k, hk, hkne⟩ : ∃ k, pyOrOpt env.OPENROUTER_API_KEY env.ANTHROPIC_API_KEY = some k ∧
      (k == "") = false := by
    rcases h : pyOrOpt env.OPENROUTER_API_KEY env.ANTHROPIC_API_KEY with _ | k
    · rw [h] at hkey
      simp [truthyOptStr] at hkey
    · rw [h] at hkey
      refine ⟨k, rfl, ?_⟩
      simpa [truthyOptStr] using hkey
  have hsel : pyOrStr (some mid) DEFAULT_MODEL = mid := by
    simp [pyOrStr, hne]
  have hget : get_model env (some mid) =
      .ok ({ api_key := k,
             base_url := "https://openrouter.ai/api/v1",
             model_id := DEFAULT_MODEL }, true) := by
    rw [get_model, hk]
    simp only [hkne, Bool.false_eq_true, if_false, hsel, hmid, Option.isNone_none, if_true]
  refine ⟨⟨_, hget, rfl⟩, ?_⟩
  intro tools atype hat
  rcases h : AGENT_CONFIGS.lookup atype with _ | config
  · rw [h] at hat; simp at hat
  · rw [create_agent, h, hget]
    rfl

/-- C7 witness: with an API key set, the unregistered model id
`"no-such/model"` degrades to the default with a warning, and building Scout
with it succeeds. -/
theorem model_fallback_witness :
    (∃ m, get_model { OPENROUTER_API_KEY := some "k", ANTHROPIC_API_KEY := none }
        (some "no-such/model") = .ok (m, true) ∧ m.model_id = DEFAULT_MODEL) ∧
    (∀ tools atype, (AGENT_CONFIGS.lookup atype).isSome = true →
        (create_agent { OPENROUTER_API_KEY := some "k", ANTHROPIC_API_KEY := none }
            atype tools (some "no-such/model")).isOk = true) :=
  model_fallback { OPENROUTER_API_KEY := some "k", ANTHROPIC_API_KEY := none }
    "no-such/model" (by decide) (by decide) (by decide)

/-! ## The orchestrator (`AgentOrchestrator`, `agents.py` lines 433–607) -/

/-- The state `AgentOrchestrator.__init__` leaves behind. -/
structure Orchestrator where
  use_swarm : Bool
  tools : List String
  swarm : Option Swarm
  agents : List (String × Agent)
deriving DecidableEq

/-- The per-persona agent map built by the `__init__` loop over
`AGENT_CONFIGS` (`agents.py` lines 462–469): agents whose construction
raises are logged and skipped. -/
def buildSingleAgents (env : Env) (tools : List String) : List (String × Agent) :=
  AGENT_CONFIGS.filterMap (fun p =>
    match create_agent env p.1 (some tools) none with
    | .ok a => some (p.1, a)
    | .error _ => none)

/-- `AgentOrchestrator.__init__` (`agents.py` lines 439–469).  When
`use_swarm` is true and `create_swarm` raises, the exception is caught,
`use_swarm` is reset to false and the single-mode agents are built; the
constructor itself never raises (it is a total function). -/
def Orchestrator.init (env : Env) (use_swarm : Bool) (tools : Option (List String))
    (swarmCtorFault : Option String) : Orchestrator :=
  let tools0 := tools.getD []
  let mode : Bool × Option Swarm :=
    if use_swarm then
      match create_swarm env (some tools0) swarmCtorFault with
      | .ok s => (true, some s)
      | .error _ => (false, none)
    else (false, none)
  { use_swarm := mode.1,
    tools := tools0,
    swarm := mode.2,
    agents := if mode.1 then [] else buildSingleAgents env tools0 }

/-- The result dictionary of `process_query` and its two helpers. -/
structure QueryResult where
  response : String
  agent : String
  handoffs : List String
  status : String
deriving DecidableEq

/-- What the orchestrator reads off one node's entry of the swarm result's
`results` dict: `result := some (str node_result.result)` when the node
result object has a `result` attribute, `none` otherwise. -/
structure SwarmNodeResult where
  result : Option String
deriving DecidableEq

/-- The observable part of the external swarm engine's result object
(`agents.py` lines 525–551 read it via `hasattr`/`getattr`):
`node_history` and `results` are `none` when the attribute is absent,
`str_repr` is `str(result)`, `status` is `none` when absent. -/
structure SwarmResultObj where
  node_history : Option (List String)
  results : Option (List (String × SwarmNodeResult))
  str_repr : String
  status : Option String
deriving DecidableEq

/-- Outcome of the external call `self.swarm(swarm_query)`. -/
inductive SwarmCall where
  | raises (msg : String)
  | returns (result : SwarmResultObj)
deriving DecidableEq

/-- Outcome of the external call `agent(query)`. -/
inductive AgentCall where
  | raises (msg : String)
  | returns (text : String)
deriving DecidableEq

/-- The swarm-mode query wrapper (`agents.py` lines 502–520). -/
def swarm_query_text (query : String) : String :=
  "[SWARM MODE - TEAM COLLABORATION REQUEST]\n\nThe user has invoked /swarm mode, requesting ALL agents to collaborate on this task.\nThis is NOT a casual chat - provide a thorough, detailed response by leveraging multiple perspectives.\n\nUser's request: "
    ++ query
    ++ "\n\nInstructions for Maven (Coordinator):\n1. This is a /swarm request - provide a COMPREHENSIVE response (not short/casual)\n2. Consider which specialist agents would be helpful:\n   - Scout for research/discovery\n   - Sage for analysis/insights  \n   - Chronicle for documentation/writing\n   - Trends for current news/trends\n   - Gandalfius for business/freelancing advice\n3. Synthesize insights into a helpful, detailed response\n4. If appropriate, provide actionable steps or a structured answer\n\nProvide a thorough, helpful response to the user's request."

/-- `AgentOrchestrator._process_with_swarm` (`agents.py` lines 490–561).
The external engine is invoked on `swarm_query_text query`; `call` is that
invocation's outcome.  Every exception is caught and turned into an error
result. -/
def _process_with_swarm (st : Orchestrator) (call : SwarmCall) (query : String) :
    QueryResult :=
  match st.swarm with
  | none =>
    { response := "Swarm not initialized.", agent := "maven",
      handoffs := [], status := "error" }
  | some _ =>
    match call with
    | .raises e =>
      { response := "I encountered an error processing your request: " ++ e,
        agent := "maven", handoffs := [], status := "error" }
    | .returns result =>
      let agent_history := result.node_history.getD []
      -- `agent_history[-1] if agent_history else "maven"`
      let final_agent := agent_history.getLast?.getD "maven"
      let response_text :=
        match result.results with
        | some rs =>
          match rs.lookup final_agent with
          | some node_result => node_result.result.getD ""
          | none => ""
        | none => ""
      -- `if not response_text: response_text = str(result)`
      let response_text := if response_text == "" then result.str_repr else response_text
      { response := response_text, agent := final_agent,
        handoffs := agent_history, status := result.status.getD "completed" }

/-- `AgentOrchestrator._process_with_single_agent` (`agents.py`
lines 563–607).  `call` is the outcome of the `agent(query)` invocation. -/
def _process_with_single_agent (st : Orchestrator) (call : AgentCall)
    (query : String) (preferred_agent : Option String) : QueryResult :=
  let agent_type := pyOrStr preferred_agent (route_to_agent query)
  -- `self.agents.get(agent_type) or self.agents.get("maven")`
  match (st.agents.lookup agent_type).orElse (fun _ => st.agents.lookup "maven") with
  | none =>
    { response := "No agent available to handle this request.", agent := "maven",
      handoffs := [], status := "error" }
  | some _ =>
    match call with
    | .raises e =>
      { response := "I encountered an error: " ++ e, agent := agent_type,
        handoffs := [agent_type], status := "error" }
    | .returns text =>
      { response := text.trim, agent := agent_type,
        handoffs := [agent_type], status := "completed" }

/-- `AgentOrchestrator.process_query` (`agents.py` lines 471–488):
dispatches on `self.use_swarm and self.swarm is not None`.  `scall` and
`acall` are the outcomes of the external calls the two paths would make. -/
def process_query (st : Orchestrator) (scall : SwarmCall) (acall : AgentCall)
    (query : String) (preferred_agent : Option String) : QueryResult :=
  if st.use_swarm && st.swarm.isSome then _process_with_swarm st scall query
  else _process_with_single_agent st acall query preferred_agent

/-! ### Shared concrete states for witnesses and counterexamples -/

/-- An environment with no API key: every agent build raises. -/
def noKeyEnv : Env := { OPENROUTER_API_KEY := none, ANTHROPIC_API_KEY := none }

/-- An environment with an API key set. -/
def demoEnv : Env := { OPENROUTER_API_KEY := some "k", ANTHROPIC_API_KEY := none }

/-- Single-mode orchestrator built with no API key: its agent map is empty. -/
def noAgentOrch : Orchestrator := Orchestrator.init noKeyEnv false none none

/-- Single-mode orchestrator built with an API key: all six agents present. -/
def singleOrch : Orchestrator := Orchestrator.init demoEnv false none none

/-- Swarm-mode orchestrator built with an API key: swarm construction
succeeds. -/
def swarmOrch : Orchestrator := Orchestrator.init demoEnv true none none

/-! ### Substring helper lemmas -/

/-- A list is a Boolean prefix of itself followed by anything. -/
theorem isPrefixList_append (xs ys : List Char) : isPrefixList xs (xs ++ ys) = true := by
  induction xs with
  | nil => rfl
  | cons c cs ih => simp [isPrefixList, ih]

/-- `needle` occurs in `pre ++ needle`. -/
theorem containsSub_append_left (pre n : List Char) : containsSub n (pre ++ n) = true := by
  induction pre with
  | nil =>
    cases n with
    | nil => rfl
    | cons c cs =>
      have h := isPrefixList_append (c :: cs) []
      rw [List.append_nil] at h
      simp [containsSub, h]
  | cons p ps ih => simp [containsSub, ih]

/-- A string contains every suffix appended to a prefix. -/
theorem strContains_append_right (pre m : String) : strContains (pre ++ m) m = true := by
  rw [strContains, String.data_append]
  exact containsSub_append_left pre.data m.data

/-! ### Claims about construction and `process_query` -/

/-- C9: Swarm construction fallback.  If the orchestrator is constructed
with `use_swarm = true` and swarm creation raises any exception,
construction still succeeds (`Orchestrator.init` is total): the resulting
state has `use_swarm = false`, no swarm, and the per-persona single-mode
agents built exactly as in single mode. -/
theorem swarm_construction_fallback (env : Env) (tools : Option (List String))
    (fault : Option String) (e : String)
    (h : create_swarm env (some (tools.getD [])) fault = .error e) :
    (Orchestrator.init env true tools fault).use_swarm = false ∧
    (Orchestrator.init env true tools fault).swarm = none ∧
    (Orchestrator.init env true tools fault).agents =
      buildSingleAgents env (tools.getD []) := by
  unfold Orchestrator.init
  simp [h]

/-- C9 witness: with no API key, building the swarm's first member agent
raises, and construction falls back to (an empty family of) single-mode
agents with `use_swarm = false`. -/
theorem swarm_construction_fallback_witness :
    (Orchestrator.init noKeyEnv true none none).use_swarm = false ∧
    (Orchestrator.init noKeyEnv true none none).swarm = none ∧
    (Orchestrator.init noKeyEnv true none none).agents =
      buildSingleAgents noKeyEnv [] :=
  swarm_construction_fallback noKeyEnv none none
    "OPENROUTER_API_KEY or ANTHROPIC_API_KEY must be set" (by rfl)

/-- C4 counterexample: a single-mode orchestrator whose agent map is empty
(reachable: construction with no API key) returns `handoffs = []` of length
0, not 1, from `process_query`. -/
theorem single_mode_handoff_counterexample :
    (process_query noAgentOrch (.raises "x") (.returns "hello") "hi" none).handoffs.length ≠ 1 := by
  decide

/-- C4 (amended): for every query processed in single mode (the dispatch
takes the single-agent path) in which the routed-to agent or the maven
fallback is present in the agent map, the returned `handoffs` list is
exactly the one-element list holding the returned `agent` field; when no
agent is available the result instead has `handoffs = []` and
`agent = "maven"` (see the counterexample). -/
theorem single_mode_handoff (st : Orchestrator) (scall : SwarmCall) (acall : AgentCall)
    (q : String) (pa : Option String)
    (hmode : (st.use_swarm && st.swarm.isSome) = false)
    (havail : ((st.agents.lookup (pyOrStr pa (route_to_agent q))).orElse
        (fun _ => st.agents.lookup "maven")).isSome = true) :
    (process_query st scall acall q pa).handoffs =
      [(process_query st scall acall q pa).agent] ∧
    (process_query st scall acall q pa).handoffs.length = 1 := by
  rw [process_query, if_neg (by simp [hmode])]
  rcases hl : (st.agents.lookup (pyOrStr pa (route_to_agent q))).orElse
      (fun _ => st.agents.lookup "maven") with _ | a
  · rw [hl] at havail; simp at havail
  · cases acall <;> simp [_process_with_single_agent, hl]

/-- C4 witness: a fully built single-mode orchestrator handling `"hello"`
returns `handoffs = [agent]` of length 1. -/
theorem single_mode_handoff_witness :
    (process_query singleOrch (.raises "x") (.returns "hi there") "hello" none).handoffs =
      [(process_query singleOrch (.raises "x") (.returns "hi there") "hello" none).agent] ∧
    (process_query singleOrch (.raises "x") (.returns "hi there") "hello" none).handoffs.length = 1 :=
  single_mode_handoff singleOrch (.raises "x") (.returns "hi there") "hello" none
    (by decide) (by decide)

/-- C5: Error containment.  `process_query` is a total function (the
embedding of "never raises to its caller"), and whenever the external call
made by the branch actually taken raises with message `m`, the result has
`status = "error"` and a human-readable message: either the text embeds `m`,
or it is one of the two fixed availability messages (uninitialized swarm /
no agent available). -/
theorem error_containment (st : Orchestrator) (q : String) (pa : Option String)
    (m : String) :
    (process_query st (.raises m) (.raises m) q pa).status = "error" ∧
    (strContains (process_query st (.raises m) (.raises m) q pa).response m = true ∨
     (process_query st (.raises m) (.raises m) q pa).response = "Swarm not initialized." ∨
     (process_query st (.raises m) (.raises m) q pa).response =
       "No agent available to handle this request.") := by
  rw [process_query]
  split
  · rcases hsw : st.swarm with _ | s
    · have he : _process_with_swarm st (.raises m) q =
          { response := "Swarm not initialized.", agent := "maven",
            handoffs := [], status := "error" } := by
        simp [_process_with_swarm, hsw]
      rw [he]
      exact ⟨rfl, Or.inr (Or.inl rfl)⟩
    · have he : _process_with_swarm st (.raises m) q =
          { response := "I encountered an error processing your request: " ++ m,
            agent := "maven", handoffs := [], status := "error" } := by
        simp [_process_with_swarm, hsw]
      rw [he]
      exact ⟨rfl, Or.inl (strContains_append_right
        "I encountered an error processing your request: " m)⟩
  · rcases hl : (st.agents.lookup (pyOrStr pa (route_to_agent q))).orElse
        (fun _ => st.agents.lookup "maven") with _ | a
    · have he : _process_with_single_agent st (.raises m) q pa =
          { response := "No agent available to handle this request.",
            agent := "maven", handoffs := [], status := "error" } := by
        simp [_process_with_single_agent, hl]
      rw [he]
      exact ⟨rfl, Or.inr (Or.inr rfl)⟩
    · have he : _process_with_single_agent st (.raises m) q pa =
          { response := "I encountered an error: " ++ m,
            agent := pyOrStr pa (route_to_agent q),
            handoffs := [pyOrStr pa (route_to_agent q)], status := "error" } := by
        simp [_process_with_single_agent, hl]
      rw [he]
      exact ⟨rfl, Or.inl (strContains_append_right "I encountered an error: " m)⟩

/-- C6: Final-agent membership.  For every result of `process_query` (both
modes, all external outcomes, every error branch): if the returned
`handoffs` list is non-empty then the returned `agent` is a member of it,
and if it is empty then the returned `agent` is the coordinator
`"maven"`. -/
theorem final_agent_membership (st : Orchestrator) (scall : SwarmCall)
    (acall : AgentCall) (q : String) (pa : Option String) :
    ((process_query st scall acall q pa).handoffs ≠ [] →
      (process_query st scall acall q pa).agent ∈
        (process_query st scall acall q pa).handoffs) ∧
    ((process_query st scall acall q pa).handoffs = [] →
      (process_query st scall acall q pa).agent = "maven") := by
  rw [process_query]
  split
  · rcases hsw : st.swarm with _ | s
    · have he : _process_with_swarm st scall q =
          { response := "Swarm not initialized.", agent := "maven",
            handoffs := [], status := "error" } := by
        simp [_process_with_swarm, hsw]
      rw [he]
      exact ⟨fun h => absurd rfl h, fun _ => rfl⟩
    · rcases scall with e | result
      · have he : _process_with_swarm st (.raises e) q =
            { response := "I encountered an error processing your request: " ++ e,
              agent := "maven", handoffs := [], status := "error" } := by
          simp [_process_with_swarm, hsw]
        rw [he]
        exact ⟨fun h => absurd rfl h, fun _ => rfl⟩
      · have hag : (_process_with_swarm st (.returns result) q).agent =
            (result.node_history.getD []).getLast?.getD "maven" := by
          simp [_process_with_swarm, hsw]
        have hho : (_process_with_swarm st (.returns result) q).handoffs =
            result.node_history.getD [] := by
          simp [_process_with_swarm, hsw]
        rw [hag, hho]
        rcases hh : result.node_history.getD [] with _ | ⟨a, l⟩
        · exact ⟨fun h => absurd rfl h, fun _ => rfl⟩
        · constructor
          · intro _
            rw [List.getLast?_eq_getLast (a :: l) (by simp), Option.getD_some]
            exact List.getLast_mem (by simp)
          · intro h; exact absurd h (by simp)
  · rcases hl : (st.agents.lookup (pyOrStr pa (route_to_agent q))).orElse
        (fun _ => st.agents.lookup "maven") with _ | a
    · have he : _process_with_single_agent st acall q pa =
          { response := "No agent available to handle this request.",
            agent := "maven", handoffs := [], status := "error" } := by
        simp [_process_with_single_agent, hl]
      rw [he]
      exact ⟨fun h => absurd rfl h, fun _ => rfl⟩
    · have hb : (_process_with_single_agent st acall q pa).agent =
          pyOrStr pa (route_to_agent q) ∧
          (_process_with_single_agent st acall q pa).handoffs =
            [pyOrStr pa (route_to_agent q)] := by
        cases acall <;> simp [_process_with_single_agent, hl]
      rw [hb.1, hb.2]
      exact ⟨fun _ => by simp, fun h => absurd h (by simp)⟩

/-- C6 witness: on a concrete swarm run visiting `["scout", "sage"]`, the
final agent `"sage"` is a member of the returned handoff list. -/
theorem final_agent_membership_witness :
    (process_query swarmOrch
        (.returns { node_history := some ["scout", "sage"],
                    results := some [("sage", { result := some "done by sage" })],
                    str_repr := "done by sage", status := some "completed" })
        (.returns "x") "hi" none).agent ∈
      (process_query swarmOrch
        (.returns { node_history := some ["scout", "sage"],
                    results := some [("sage", { result := some "done by sage" })],
                    str_repr := "done by sage", status := some "completed" })
        (.returns "x") "hi" none).handoffs :=
  (final_agent_membership swarmOrch
    (.returns { node_history := some ["scout", "sage"],
                results := some [("sage", { result := some "done by sage" })],
                str_repr := "done by sage", status := some "completed" })
    (.returns "x") "hi" none).1 (by decide)

/-! ## Streaming (`agents.py` lines 609–799)

A streamed call yields a sequence of event dictionaries; the sequence is
modelled as the list of events the generator produces.  Keys that are only
present in some modes (`swarm_mode` on `start`, `handoffs` on `done`) are
`Option` fields. -/

/-- One yielded streaming event. -/
inductive StreamEvent where
  | start (agent : String) (model : String) (swarm_mode : Option Bool)
  | chunk (data : String)
  | tool (tool : String)
  | done (agent : String) (response : String) (handoffs : Option (List String))
  | error (message : String) (agent : String)
deriving DecidableEq

/-- One event produced by the external `agent.stream_async` iterator:
a `"data"` chunk, a `"current_tool_use"` notification carrying a name
(`""` models a falsy/absent name), or any other event (ignored by the
orchestrator). -/
inductive RawEvent where
  | data (chunk : String)
  | currentToolUse (name : String)
  | other
deriving DecidableEq

/-- How the single-agent stream loop (`agents.py` lines 762–777) translates
one raw event: data chunks become `chunk` events, tool uses with a truthy
name become `tool` events, everything else is skipped. -/
def midEvent : RawEvent → Option StreamEvent
  | .data c => some (.chunk c)
  | .currentToolUse n => if n == "" then none else some (.tool n)
  | .other => none

/-- The `full_response` accumulator: the concatenation of all data chunks in
emission order (`full_response += chunk`). -/
def collectData (raw : List RawEvent) : String :=
  raw.foldl (fun acc e =>
    match e with
    | .data c => acc ++ c
    | _ => acc) ""

/-- The fixed huddle notice chunk (`agents.py` lines 628–631). -/
def huddleChunk : String := "🤝 *Team huddle in progress...*\n\n"

/-- The `agents_involved` string (`agents.py` lines 647–655): emoji and name
of every handoff participant that is a registered persona, comma-joined. -/
def agentsInvolvedText (handoffs : List String) : String :=
  String.intercalate ", "
    ((handoffs.filter (fun a => (AGENT_CONFIGS.lookup a).isSome)).map
      (fun a => ((AGENT_CONFIGS.lookup a).map AgentConfig.emoji).getD "🤖" ++ " "
        ++ ((AGENT_CONFIGS.lookup a).map AgentConfig.name).getD a))

/-- `chunk_size = 50  # characters per chunk` (`agents.py` line 662). -/
def chunk_size : Nat := 50

/-- The simulated-streaming re-chunking loop (`agents.py` lines 663–670):
`for i in range(0, len(response_text), chunk_size): response_text[i:i+chunk_size]`. -/
def simulatedChunks (response_text : String) : List String :=
  (List.range' 0 ((response_text.length + chunk_size - 1) / chunk_size) chunk_size).map
    (fun i => String.mk ((response_text.data.drop i).take chunk_size))

/-- `AgentOrchestrator._stream_with_swarm` (`agents.py` lines 609–693).
`call` is the outcome of the blocking swarm invocation run on the executor;
`execErr` models an exception raised by the executor machinery itself
(before any result processing), which the `except` clause turns into a
terminal `error` event. -/
def _stream_with_swarm (st : Orchestrator) (call : SwarmCall) (execErr : Option String)
    (query : String) : List StreamEvent :=
  StreamEvent.start "maven" DEFAULT_MODEL (some true) ::
  StreamEvent.chunk huddleChunk ::
  (match execErr with
   | some m => [StreamEvent.error m "maven"]
   | none =>
     let result := _process_with_swarm st call query
     let response_text := result.response
     let final_agent := result.agent
     let handoffs := result.handoffs
     (if handoffs ≠ [] ∧ 1 < handoffs.length then
        [StreamEvent.chunk ("*Agents consulted: " ++ agentsInvolvedText handoffs
          ++ "*\n\n---\n\n")]
      else []) ++
     (simulatedChunks response_text).map StreamEvent.chunk ++
     [StreamEvent.done final_agent response_text (some handoffs)])

/-- The agent-selection logic of `stream_query` (`agents.py` lines 725–736):
with a truthy non-default model preference, build a fresh agent with it and
fall back to the cached agent (then maven) on failure; otherwise use the
cached agent (then maven). -/
def resolveStreamAgent (env : Env) (st : Orchestrator) (agent_type : String)
    (model_id : Option String) : Option Agent :=
  if truthyOptStr model_id && (model_id != some DEFAULT_MODEL) then
    match create_agent env agent_type (some st.tools) model_id with
    | .ok a => some a
    | .error _ => (st.agents.lookup agent_type).orElse (fun _ => st.agents.lookup "maven")
  else (st.agents.lookup agent_type).orElse (fun _ => st.agents.lookup "maven")

/-- The single-agent tail of `AgentOrchestrator.stream_query` (`agents.py`
lines 722–799).  `raw` is the sequence of events the underlying
`agent.stream_async` iterator produced before finishing or failing;
`iterErr = some m` means the iteration then raised with message `m`
(caught and converted to a terminal `error` event). -/
def stream_query_single (env : Env) (st : Orchestrator) (query : String)
    (preferred_agent : Option String) (model_id : Option String)
    (raw : List RawEvent) (iterErr : Option String) : List StreamEvent :=
  let agent_type := pyOrStr preferred_agent (route_to_agent query)
  match resolveStreamAgent env st agent_type model_id with
  | none => [StreamEvent.error "No agent available to handle this request." "maven"]
  | some _ =>
    let selected_model := pyOrStr model_id DEFAULT_MODEL
    StreamEvent.start agent_type selected_model none ::
    (raw.filterMap midEvent ++
      match iterErr with
      | none => [StreamEvent.done agent_type (collectData raw) none]
      | some m => [StreamEvent.error m agent_type])

/-- `AgentOrchestrator.stream_query` (`agents.py` lines 695–799): dispatches
on `self.use_swarm and self.swarm is not None`, exactly like
`process_query`. -/
def stream_query (env : Env) (st : Orchestrator) (query : String)
    (preferred_agent : Option String) (model_id : Option String)
    (scall : SwarmCall) (execErr : Option String)
    (raw : List RawEvent) (iterErr : Option String) : List StreamEvent :=
  if st.use_swarm && st.swarm.isSome then _stream_with_swarm st scall execErr query
  else stream_query_single env st query preferred_agent model_id raw iterErr

/-! ### Event-shape predicates and helper lemmas -/

/-- Is the event a `start` event? -/
def isStartEvent : StreamEvent → Bool
  | .start _ _ _ => true
  | _ => false

/-- Is the event terminal (`done` or `error`)? -/
def isTerminalEvent : StreamEvent → Bool
  | .done _ _ _ => true
  | .error _ _ => true
  | _ => false

/-- Is the event a `chunk` event? -/
def isChunkEvent : StreamEvent → Bool
  | .chunk _ => true
  | _ => false

/-- The text fields of the `chunk` events of a stream, in order. -/
def chunkTexts (evs : List StreamEvent) : List String :=
  evs.filterMap (fun e =>
    match e with
    | .chunk d => some d
    | _ => none)

/-- The spec's ordering invariant, minus the opening-`start` clause: exactly
one terminal event, it is the last event (so nothing follows it), at most
one `start`, and any `start` is the first event. -/
def orderedStream (evs : List StreamEvent) : Bool :=
  (evs.countP isTerminalEvent == 1) &&
  ((evs.getLast?.map isTerminalEvent).getD false) &&
  decide (evs.countP isStartEvent ≤ 1) &&
  ((evs.countP isStartEvent == 0) || ((evs.head?.map isStartEvent).getD false))

/-- Events translated from raw agent events are chunk/tool events: never a
`start`, never terminal. -/
theorem midEvent_shape (r : RawEvent) (e : StreamEvent) (h : midEvent r = some e) :
    isStartEvent e = false ∧ isTerminalEvent e = false := by
  rcases r with c | n | _
  · simp only [midEvent] at h
    injection h with h
    subst h
    exact ⟨rfl, rfl⟩
  · simp only [midEvent] at h
    split at h
    · exact absurd h (by simp)
    · injection h with h
      subst h
      exact ⟨rfl, rfl⟩
  · exact absurd h (by simp [midEvent])

/-- The translated middle of a single-agent stream contains no `start` and
no terminal event. -/
theorem filterMap_midEvent_counts (raw : List RawEvent) :
    (raw.filterMap midEvent).countP isStartEvent = 0 ∧
    (raw.filterMap midEvent).countP isTerminalEvent = 0 := by
  constructor <;>
  · rw [List.countP_eq_zero]
    intro e he
    obtain ⟨r, _, hr⟩ := List.mem_filterMap.mp he
    have hs := midEvent_shape r e hr
    simp [hs.1, hs.2]

/-- A list of `chunk` events contains no `start` and no terminal event. -/
theorem chunkMap_counts (l : List String) :
    (l.map StreamEvent.chunk).countP isStartEvent = 0 ∧
    (l.map StreamEvent.chunk).countP isTerminalEvent = 0 := by
  constructor <;>
  · rw [List.countP_eq_zero]
    intro e he
    obtain ⟨s, _, rfl⟩ := List.mem_map.mp he
    simp [isStartEvent, isTerminalEvent]

/-- Shape lemma: a stream of the form `start :: middle ++ [terminal]`, with
a start-free, terminal-free middle, satisfies the ordering invariant and
has exactly one `start`, which is first. -/
theorem streamShape_ok (a : StreamEvent) (mid : List StreamEvent) (t : StreamEvent)
    (ha : isStartEvent a = true) (hat : isTerminalEvent a = false)
    (hm1 : mid.countP isStartEvent = 0) (hm2 : mid.countP isTerminalEvent = 0)
    (ht : isTerminalEvent t = true) (hts : isStartEvent t = false) :
    orderedStream (a :: (mid ++ [t])) = true ∧
    (a :: (mid ++ [t])).countP isStartEvent = 1 ∧
    (((a :: (mid ++ [t])).head?.map isStartEvent).getD false) = true := by
  have hterm : (a :: (mid ++ [t])).countP isTerminalEvent = 1 := by
    rw [List.countP_cons, List.countP_append]
    simp [hat, hm2, ht, List.countP_cons]
  have hstart : (a :: (mid ++ [t])).countP isStartEvent = 1 := by
    rw [List.countP_cons, List.countP_append]
    simp [ha, hm1, hts, List.countP_cons]
  have hlast : (a :: (mid ++ [t])).getLast? = some t := by
    rw [show a :: (mid ++ [t]) = (a :: mid) ++ [t] by simp]
    exact List.getLast?_concat _
  refine ⟨?_, hstart, by simp [ha]⟩
  rw [orderedStream, hterm, hstart, hlast]
  simp [ht, ha]

/-- C2 (amended): Streaming event ordering.  Every stream produced by
`stream_query` (both modes, every external outcome) contains exactly one
terminal event (`done` or `error`, never both), that terminal event is last
(no event after it), there is at most one `start` event, and any `start` is
first.  Moreover either the stream opens with exactly one `start`, or it is
the degenerate single-mode no-agent-available stream consisting of exactly
one `error` event (and no `start` at all — see the counterexample). -/
theorem stream_event_ordering (env : Env) (st : Orchestrator) (q : String)
    (pa model_id : Option String) (scall : SwarmCall) (execErr : Option String)
    (raw : List RawEvent) (iterErr : Option String) :
    orderedStream (stream_query env st q pa model_id scall execErr raw iterErr) = true ∧
    (((stream_query env st q pa model_id scall execErr raw iterErr).countP isStartEvent = 1 ∧
      (((stream_query env st q pa model_id scall execErr raw iterErr).head?.map
          isStartEvent).getD false) = true) ∨
     stream_query env st q pa model_id scall execErr raw iterErr =
       [StreamEvent.error "No agent available to handle this request." "maven"]) := by
  rw [stream_query]
  split
  · -- swarm mode
    rcases execErr with _ | m
    · -- normal completion
      have he : _stream_with_swarm st scall none q =
          StreamEvent.start "maven" DEFAULT_MODEL (some true) ::
          ((StreamEvent.chunk huddleChunk ::
            ((if (_process_with_swarm st scall q).handoffs ≠ [] ∧
                  1 < (_process_with_swarm st scall q).handoffs.length then
                [StreamEvent.chunk ("*Agents consulted: "
                  ++ agentsInvolvedText (_process_with_swarm st scall q).handoffs
                  ++ "*\n\n---\n\n")]
              else []) ++
              (simulatedChunks (_process_with_swarm st scall q).response).map
                StreamEvent.chunk)) ++
            [StreamEvent.done (_process_with_swarm st scall q).agent
              (_process_with_swarm st scall q).response
              (some (_process_with_swarm st scall q).handoffs)]) := by
        simp [_stream_with_swarm]
      rw [he]
      have hsh := streamShape_ok (StreamEvent.start "maven" DEFAULT_MODEL (some true))
        (StreamEvent.chunk huddleChunk ::
          ((if (_process_with_swarm st scall q).handoffs ≠ [] ∧
                1 < (_process_with_swarm st scall q).handoffs.length then
              [StreamEvent.chunk ("*Agents consulted: "
                ++ agentsInvolvedText (_process_with_swarm st scall q).handoffs
                ++ "*\n\n---\n\n")]
            else []) ++
            (simulatedChunks (_process_with_swarm st scall q).response).map
              StreamEvent.chunk))
        (StreamEvent.done (_process_with_swarm st scall q).agent
          (_process_with_swarm st scall q).response
          (some (_process_with_swarm st scall q).handoffs))
        rfl rfl
        (by rw [List.countP_cons, List.countP_append]
            have hc := (chunkMap_counts
              (simulatedChunks (_process_with_swarm st scall q).response)).1
            split <;> simp [hc, isStartEvent, List.countP_cons])
        (by rw [List.countP_cons, List.countP_append]
            have hc := (chunkMap_counts
              (simulatedChunks (_process_with_swarm st scall q).response)).2
            split <;> simp [hc, isTerminalEvent, List.countP_cons])
        rfl rfl
      exact ⟨hsh.1, Or.inl ⟨hsh.2.1, hsh.2.2⟩⟩
    · -- executor failure
      have he : _stream_with_swarm st scall (some m) q =
          StreamEvent.start "maven" DEFAULT_MODEL (some true) ::
          ([StreamEvent.chunk huddleChunk] ++ [StreamEvent.error m "maven"]) := by
        simp [_stream_with_swarm]
      rw [he]
      have hsh := streamShape_ok (StreamEvent.start "maven" DEFAULT_MODEL (some true))
        [StreamEvent.chunk huddleChunk] (StreamEvent.error m "maven")
        rfl rfl (by simp [List.countP_cons, isStartEvent])
        (by simp [List.countP_cons, isTerminalEvent]) rfl rfl
      exact ⟨hsh.1, Or.inl ⟨hsh.2.1, hsh.2.2⟩⟩
  · -- single-agent mode
    rcases hag : resolveStreamAgent env st (pyOrStr pa (route_to_agent q)) model_id
      with _ | a
    · have he : stream_query_single env st q pa model_id raw iterErr =
          [StreamEvent.error "No agent available to handle this request." "maven"] := by
        simp [stream_query_single, hag]
      rw [he]
      exact ⟨rfl, Or.inr rfl⟩
    · rcases iterErr with _ | m
      · have he : stream_query_single env st q pa model_id raw none =
            StreamEvent.start (pyOrStr pa (route_to_agent q))
              (pyOrStr model_id DEFAULT_MODEL) none ::
            (raw.filterMap midEvent ++
              [StreamEvent.done (pyOrStr pa (route_to_agent q)) (collectData raw) none]) := by
          simp [stream_query_single, hag]
        rw [he]
        have hsh := streamShape_ok
          (StreamEvent.start (pyOrStr pa (route_to_agent q))
            (pyOrStr model_id DEFAULT_MODEL) none)
          (raw.filterMap midEvent)
          (StreamEvent.done (pyOrStr pa (route_to_agent q)) (collectData raw) none)
          rfl rfl (filterMap_midEvent_counts raw).1 (filterMap_midEvent_counts raw).2
          rfl rfl
        exact ⟨hsh.1, Or.inl ⟨hsh.2.1, hsh.2.2⟩⟩
      · have he : stream_query_single env st q pa model_id raw (some m) =
            StreamEvent.start (pyOrStr pa (route_to_agent q))
              (pyOrStr model_id DEFAULT_MODEL) none ::
            (raw.filterMap midEvent ++
              [StreamEvent.error m (pyOrStr pa (route_to_agent q))]) := by
          simp [stream_query_single, hag]
        rw [he]
        have hsh := streamShape_ok
          (StreamEvent.start (pyOrStr pa (route_to_agent q))
            (pyOrStr model_id DEFAULT_MODEL) none)
          (raw.filterMap midEvent)
          (StreamEvent.error m (pyOrStr pa (route_to_agent q)))
          rfl rfl (filterMap_midEvent_counts raw).1 (filterMap_midEvent_counts raw).2
          rfl rfl
        exact ⟨hsh.1, Or.inl ⟨hsh.2.1, hsh.2.2⟩⟩

/-- C2 counterexample: a single-mode orchestrator with an empty agent map
(reachable: construction with no API key) streams exactly one `error` event
and no `start` event at all, so the claimed "exactly one start, first" fails
for this call. -/
theorem stream_event_ordering_counterexample :
    stream_query noKeyEnv noAgentOrch "hi" none none (.raises "x") none [] none =
      [StreamEvent.error "No agent available to handle this request." "maven"] ∧
    (stream_query noKeyEnv noAgentOrch "hi" none none
        (.raises "x") none [] none).countP isStartEvent = 0 := by
  decide

/-! ### Simulated-streaming re-chunking (C3) -/

/-- Joining the 50-character slices starting at `a, a+50, a+100, …` (`n` of
them) recovers `chunk_size * n` characters of the tail from `a`. -/
theorem join_slices (n a : Nat) (l : List Char) :
    ((List.range' a n chunk_size).map (fun i => (l.drop i).take chunk_size)).flatten =
      (l.drop a).take (chunk_size * n) := by
  induction n generalizing a with
  | zero => simp
  | succ k ih =>
    rw [show List.range' a (k + 1) chunk_size =
          a :: List.range' (a + chunk_size) k chunk_size from rfl,
        List.map_cons, List.flatten_cons, ih (a + chunk_size),
        Nat.mul_succ, Nat.add_comm (chunk_size * k) chunk_size,
        List.take_add, List.drop_drop]

/-- Folding string append over packed character lists packs the flattened
list. -/
theorem foldl_append_mk (acc : List Char) (xs : List (List Char)) :
    List.foldl (fun r s => r ++ s) (String.mk acc) (xs.map String.mk) =
      String.mk (acc ++ xs.flatten) := by
  induction xs generalizing acc with
  | nil => simp
  | cons x xs ih =>
    rw [List.map_cons, List.foldl_cons,
        show String.mk acc ++ String.mk x = String.mk (acc ++ x) from rfl, ih]
    simp

/-- `chunk_size` slices cover the whole string: its length is at most
`chunk_size` times the number of slices. -/
theorem le_chunk_bound (L : Nat) :
    L ≤ chunk_size * ((L + chunk_size - 1) / chunk_size) := by
  rw [chunk_size]
  have he : L + 50 - 1 = L + 49 := by omega
  rw [he]
  have h := Nat.div_add_mod (L + 49) 50
  have h2 : (L + 49) % 50 < 50 := Nat.mod_lt _ (by norm_num)
  omega

/-- Concatenating the simulated-streaming chunks reconstructs the response
exactly. -/
theorem join_simulatedChunks (s : String) : String.join (simulatedChunks s) = s := by
  obtain ⟨l⟩ := s
  rw [simulatedChunks,
      show (String.mk l).length = l.length from rfl,
      show (String.mk l).data = l from rfl,
      show (fun i => String.mk ((l.drop i).take chunk_size)) =
        (String.mk ∘ fun i => (l.drop i).take chunk_size) from rfl,
      ← List.map_map, String.join,
      show ("" : String) = String.mk [] from rfl,
      foldl_append_mk, List.nil_append, join_slices, List.drop_zero,
      List.take_of_length_le (le_chunk_bound l.length)]

/-- Extracting chunk texts from a list of wrapped chunks is the identity. -/
theorem chunkTexts_map_chunk (l : List String) :
    List.filterMap
      ((fun e =>
        match e with
        | StreamEvent.chunk d => some d
        | _ => none) ∘ StreamEvent.chunk) l = l := by
  induction l with
  | nil => rfl
  | cons x xs ih => simp [List.filterMap_cons, Function.comp, ih]

/-- C3 (amended): Swarm simulated-streaming re-chunking.  In a swarm-mode
stream that completes normally, the texts of the `chunk` events are exactly:
the fixed huddle notice, then (when more than one agent participated) the
agents-consulted notice, then the re-chunked response slices; the slice list
has exactly `⌈L / 50⌉ = (L + 49) / 50` entries for a response of length `L`,
and concatenating the slices in order reconstructs the response exactly.
(The claim counted ONLY the slices; the stream also always contains the
huddle chunk and sometimes the consulted chunk — see the counterexample.) -/
theorem swarm_rechunking (st : Orchestrator) (call : SwarmCall) (q : String) :
    chunkTexts (_stream_with_swarm st call none q) =
      huddleChunk ::
      ((if (_process_with_swarm st call q).handoffs ≠ [] ∧
            1 < (_process_with_swarm st call q).handoffs.length then
          ["*Agents consulted: "
            ++ agentsInvolvedText (_process_with_swarm st call q).handoffs
            ++ "*\n\n---\n\n"]
        else []) ++
        simulatedChunks (_process_with_swarm st call q).response) ∧
    (simulatedChunks (_process_with_swarm st call q).response).length =
      ((_process_with_swarm st call q).response.length + chunk_size - 1) / chunk_size ∧
    String.join (simulatedChunks (_process_with_swarm st call q).response) =
      (_process_with_swarm st call q).response := by
  refine ⟨?_, by simp [simulatedChunks], join_simulatedChunks _⟩
  have he : _stream_with_swarm st call none q =
      StreamEvent.start "maven" DEFAULT_MODEL (some true) ::
      StreamEvent.chunk huddleChunk ::
      ((if (_process_with_swarm st call q).handoffs ≠ [] ∧
            1 < (_process_with_swarm st call q).handoffs.length then
          [StreamEvent.chunk ("*Agents consulted: "
            ++ agentsInvolvedText (_process_with_swarm st call q).handoffs
            ++ "*\n\n---\n\n")]
        else []) ++
        (simulatedChunks (_process_with_swarm st call q).response).map
          StreamEvent.chunk ++
        [StreamEvent.done (_process_with_swarm st call q).agent
          (_process_with_swarm st call q).response
          (some (_process_with_swarm st call q).handoffs)]) := by
    simp [_stream_with_swarm]
  rw [he]
  by_cases hif : (_process_with_swarm st call q).handoffs ≠ [] ∧
      1 < (_process_with_swarm st call q).handoffs.length <;>
    simp [hif, chunkTexts, List.filterMap_append, List.filterMap_cons,
      List.filterMap_map, chunkTexts_map_chunk]

/-- The swarm result of a run whose final response text is empty, with a
single participating agent. -/
def emptySwarmRes : SwarmResultObj :=
  { node_history := some ["maven"],
    results := some [("maven", { result := some "" })],
    str_repr := "", status := some "completed" }

/-- C3 counterexample: a completed swarm stream whose response has length
`L = 0` should, per the claim, contain `⌈0 / 50⌉ = 0` chunk events whose
concatenation is the empty response; the actual stream contains 1 chunk
event (the fixed huddle notice) and its chunk texts concatenate to the
huddle notice, not to the response. -/
theorem swarm_rechunking_counterexample :
    (_process_with_swarm swarmOrch (.returns emptySwarmRes) "hi").response = "" ∧
    (_stream_with_swarm swarmOrch (.returns emptySwarmRes) none "hi").countP
      isChunkEvent = 1 ∧
    String.join (chunkTexts
      (_stream_with_swarm swarmOrch (.returns emptySwarmRes) none "hi")) ≠ "" := by
  decide

/-! ## The orchestrator singleton and the HTTP layer
(`agents.py` lines 825–834, `server.py` lines 227–378) -/

/-- `get_orchestrator` (`agents.py` lines 829–834): the module-global
`_orchestrator` becomes explicit state `g`.  The singleton is created on
first use with that call's `use_swarm`; every later call returns the same
instance and ignores its `use_swarm` argument.  Returns the instance and
the new global state. -/
def get_orchestrator (g : Option Orchestrator) (env : Env) (use_swarm : Bool)
    (swarmCtorFault : Option String) : Orchestrator × Option Orchestrator :=
  match g with
  | some o => (o, some o)
  | none =>
    let o := Orchestrator.init env use_swarm none swarmCtorFault
    (o, some o)

/-- The orchestrator pre-initialization in the server's `lifespan` hook
(`server.py` lines 227–238): `get_orchestrator(use_swarm=False)` at
startup. -/
def lifespan_init (g : Option Orchestrator) (env : Env)
    (swarmCtorFault : Option String) : Orchestrator × Option Orchestrator :=
  get_orchestrator g env false swarmCtorFault

/-- The core of the `/chat` handler (`server.py` lines 336–378): fetch the
singleton with the request's `use_swarm`, then `process_query` with the
request's message and optional agent override.  (The endpoint then wraps
the result dictionary into a `ChatResponse`; the wrapping adds no
behaviour and is not modelled.) -/
def chat_handler (g : Option Orchestrator) (env : Env)
    (swarmCtorFault : Option String) (use_swarm : Bool) (message : String)
    (agent : Option String) (scall : SwarmCall) (acall : AgentCall) :
    QueryResult × Option Orchestrator :=
  let og := get_orchestrator g env use_swarm swarmCtorFault
  (process_query og.1 scall acall message agent, og.2)

/-- C10: Singleton mode fixation.  (a) Any call to `get_orchestrator` after
the singleton exists returns that same instance and ignores its `use_swarm`
argument.  (b) Because the server's `lifespan` hook pre-initializes the
singleton with `use_swarm = false`, a later `/chat` request with
`use_swarm = true` still obtains the startup instance, whose `use_swarm` is
`false`, and is served by the single-agent path of `process_query`. -/
theorem singleton_mode_fixation (env env2 : Env) (f1 f2 : Option String) (u2 : Bool) :
    (∀ o : Orchestrator, get_orchestrator (some o) env2 u2 f2 = (o, some o)) ∧
    (get_orchestrator (lifespan_init none env f1).2 env2 u2 f2).1 =
      (lifespan_init none env f1).1 ∧
    (lifespan_init none env f1).1.use_swarm = false ∧
    (∀ (msg : String) (ag : Option String) (scall : SwarmCall) (acall : AgentCall),
      (chat_handler (lifespan_init none env f1).2 env2 f2 true msg ag scall acall).1 =
        _process_with_single_agent (lifespan_init none env f1).1 acall msg ag) :=
  ⟨fun _ => rfl, rfl, rfl, fun _ _ _ _ => rfl⟩

end ArkAgentic
